import Mathlib

/-!
Shallow embedding of the `chain-db-py` client library
(`src/chain_db/{constants,utils,chain_db,table,table_doc,events}.py`).

Modelling conventions:
* Parsed JSON values are the inductive `Json`; Python dicts are association
  lists with unique keys in insertion order, and `dict.get` is `List.lookup`.
* An HTTP round trip is modelled by passing the server's reply
  (`HttpResponse`: status code, raw text, parsed JSON-object body) as an
  explicit argument to each operation.  Each operation returns the `Request`
  it sent (URL, optional JSON body, auth credential), an `Except String r`
  for the Python return-value-or-raised-exception, and the post-state of the
  handle.  Response bodies are modelled as already-parsed JSON objects; the
  `response.json()` parse-failure branch is not exercised by any claim.
* Python truthiness (the success check in each operation, and
  `connection.server or DEFAULT_API_SERVER`) is modelled explicitly
  (`Json.truthy`, `optTruthy`, `serverOrDefault`).
* WebSocket sends are recorded as a list of outbound JSON frames; callbacks
  are identified by `Nat` tokens standing for Python function references.
-/

namespace ChainDbPy

/-- Parsed JSON values as the Python client sees them after `json.loads` /
`response.json()`. Objects are association lists in insertion order. -/
inductive Json : Type where
  | null : Json
  | bool : Bool → Json
  | num : Int → Json
  | str : String → Json
  | arr : List Json → Json
  | obj : List (String × Json) → Json

mutual

def Json.decEq : (a b : Json) → Decidable (a = b)
  | .null, .null => isTrue rfl
  | .bool a, .bool b =>
    if h : a = b then isTrue (by rw [h])
    else isFalse (by intro hh; cases hh; exact h rfl)
  | .num a, .num b =>
    if h : a = b then isTrue (by rw [h])
    else isFalse (by intro hh; cases hh; exact h rfl)
  | .str a, .str b =>
    if h : a = b then isTrue (by rw [h])
    else isFalse (by intro hh; cases hh; exact h rfl)
  | .arr a, .arr b =>
    match Json.decEqList a b with
    | isTrue h => isTrue (by rw [h])
    | isFalse h => isFalse (by intro hh; cases hh; exact h rfl)
  | .obj a, .obj b =>
    match Json.decEqPairs a b with
    | isTrue h => isTrue (by rw [h])
    | isFalse h => isFalse (by intro hh; cases hh; exact h rfl)
  | .null, .bool _ => isFalse nofun
  | .null, .num _ => isFalse nofun
  | .null, .str _ => isFalse nofun
  | .null, .arr _ => isFalse nofun
  | .null, .obj _ => isFalse nofun
  | .bool _, .null => isFalse nofun
  | .bool _, .num _ => isFalse nofun
  | .bool _, .str _ => isFalse nofun
  | .bool _, .arr _ => isFalse nofun
  | .bool _, .obj _ => isFalse nofun
  | .num _, .null => isFalse nofun
  | .num _, .bool _ => isFalse nofun
  | .num _, .str _ => isFalse nofun
  | .num _, .arr _ => isFalse nofun
  | .num _, .obj _ => isFalse nofun
  | .str _, .null => isFalse nofun
  | .str _, .bool _ => isFalse nofun
  | .str _, .num _ => isFalse nofun
  | .str _, .arr _ => isFalse nofun
  | .str _, .obj _ => isFalse nofun
  | .arr _, .null => isFalse nofun
  | .arr _, .bool _ => isFalse nofun
  | .arr _, .num _ => isFalse nofun
  | .arr _, .str _ => isFalse nofun
  | .arr _, .obj _ => isFalse nofun
  | .obj _, .null => isFalse nofun
  | .obj _, .bool _ => isFalse nofun
  | .obj _, .num _ => isFalse nofun
  | .obj _, .str _ => isFalse nofun
  | .obj _, .arr _ => isFalse nofun

def Json.decEqList : (a b : List Json) → Decidable (a = b)
  | [], [] => isTrue rfl
  | [], _ :: _ => isFalse nofun
  | _ :: _, [] => isFalse nofun
  | x :: xs, y :: ys =>
    match Json.decEq x y, Json.decEqList xs ys with
    | isTrue h1, isTrue h2 => isTrue (by rw [h1, h2])
    | isFalse h1, _ => isFalse (by intro hh; cases hh; exact h1 rfl)
    | _, isFalse h2 => isFalse (by intro hh; cases hh; exact h2 rfl)

def Json.decEqPairs : (a b : List (String × Json)) → Decidable (a = b)
  | [], [] => isTrue rfl
  | [], _ :: _ => isFalse nofun
  | _ :: _, [] => isFalse nofun
  | (k1, v1) :: xs, (k2, v2) :: ys =>
    if h0 : k1 = k2 then
      match Json.decEq v1 v2, Json.decEqPairs xs ys with
      | isTrue h1, isTrue h2 => isTrue (by rw [h0, h1, h2])
      | isFalse h1, _ => isFalse (by intro hh; cases hh; exact h1 rfl)
      | _, isFalse h2 => isFalse (by intro hh; cases hh; exact h2 rfl)
    else isFalse (by intro hh; cases hh; exact h0 rfl)

end

instance : DecidableEq Json := Json.decEq

/-- Python truthiness of a JSON value (`bool(x)`). -/
def Json.truthy : Json → Bool
  | .null => false
  | .bool b => b
  | .num n => n != 0
  | .str s => s ≠ ""
  | .arr l => !l.isEmpty
  | .obj l => !l.isEmpty

/-- Python truthiness of `dict.get(key)` (absent key gives `None`, falsy). -/
def optTruthy : Option Json → Bool
  | none => false
  | some j => j.truthy

/-- `str(x)` for the values an envelope `message` field can hold; the claims
only exercise the string case. -/
def pyStr : Json → String
  | .str s => s
  | .null => "None"
  | .bool b => if b then "True" else "False"
  | .num n => toString n
  | .arr _ => "<list>"
  | .obj _ => "<dict>"

/-! ### constants.py -/

def DEFAULT_API_SERVER : String := "http://localhost:2818"

def API_BASE : String := "/api/v1"

def CONNECT : String := API_BASE ++ "/database/connect"

def GET_TABLE (table : String) : String := API_BASE ++ "/table/" ++ table

def UPDATE_ITEM (table : String) : String := API_BASE ++ "/table/" ++ table ++ "/update"

def PERSIST_NEW_DATA (table : String) : String := API_BASE ++ "/table/" ++ table ++ "/persist"

def GET_HISTORY (table : String) (limit : Int) : String :=
  API_BASE ++ "/table/" ++ table ++ "/history?limit=" ++ toString limit

def FIND_WHERE_BASIC (table : String) : String := API_BASE ++ "/table/" ++ table ++ "/find"

def FIND_WHERE_ADVANCED (table : String) : String :=
  API_BASE ++ "/table/" ++ table ++ "/find-advanced"

def GET_DOC (table : String) (docId : String) : String :=
  API_BASE ++ "/table/" ++ table ++ "/doc/" ++ docId

def WEB_SOCKET_EVENTS : String := API_BASE ++ "/events"

/-! ### utils.py (transport helpers) -/

/-- A server HTTP reply: status code, raw text, and the parsed JSON object
that `response.json()` would produce. -/
structure HttpResponse : Type where
  status : Nat
  text : String
  body : List (String × Json)
deriving DecidableEq

/-- The observable content of one outbound HTTP request: URL, JSON body
(`none` for GET), and the auth credential passed to the transport helper. -/
structure Request : Type where
  url : String
  body : Option (List (String × Json))
  auth : Json
deriving DecidableEq

/-- Message of the exception `utils.post` / `utils.get` raise on a non-200
status code. -/
def statusMsg (status : Nat) (text : String) : String :=
  "Request failed with status code " ++ toString status ++ ": " ++ text

/-- `utils.post`: raise on non-200, otherwise hand back the parsed envelope. -/
def post (resp : HttpResponse) : Except String (List (String × Json)) :=
  if resp.status ≠ 200 then .error (statusMsg resp.status resp.text)
  else .ok resp.body

/-- `utils.get`: same status check as `post`. -/
def get (resp : HttpResponse) : Except String (List (String × Json)) :=
  if resp.status ≠ 200 then .error (statusMsg resp.status resp.text)
  else .ok resp.body

/-- The text each operation raises on a non-success envelope: the message
field of the envelope, defaulting to the literal Unknown error, rendered by
Python str via the intermediate `Exception`. -/
def msgStr (env : List (String × Json)) : String :=
  pyStr ((env.lookup "message").getD (Json.str "Unknown error"))

/-! ### types.py -/

/-- `types.Connection`. `server` is `Optional[str]`. -/
structure Connection : Type where
  server : Option String
  database : String
  user : String
  password : String
deriving DecidableEq

/-- `types.CriteriaAdvanced`. -/
structure CriteriaAdvanced : Type where
  field : String
  operator : String
  value : Json
deriving DecidableEq

/-! ### chain_db.py -/

/-- `ChainDB` handle state: server, database and auth.  `auth` holds whatever
JSON value the connect envelope's `data` field carried (initially the
empty string). -/
structure ChainDB : Type where
  server : String
  database : String
  auth : Json
deriving DecidableEq

/-- `ChainDB.__init__`. -/
def ChainDB.init : ChainDB :=
  { server := DEFAULT_API_SERVER, database := "", auth := Json.str "" }

/-- `connection.server or DEFAULT_API_SERVER` (Python `or` tests truthiness,
so both `None` and the empty string fall back to the default). -/
def serverOrDefault : Option String → String
  | none => DEFAULT_API_SERVER
  | some s => if s = "" then DEFAULT_API_SERVER else s

def connectErr : String := "Something went wrong with connect operation: "

/-- `ChainDB.connect`: overwrites `server` and `database` first, then POSTs
the credentials; on a success envelope stores its `data` as `auth`, otherwise
raises with the `connectErr` wrapping. -/
def ChainDB.connect (db : ChainDB) (c : Connection) (resp : HttpResponse) :
    Request × Except String Unit × ChainDB :=
  let server := serverOrDefault c.server
  let db1 : ChainDB := { db with server := server, database := c.database }
  let body : List (String × Json) :=
    [("name", Json.str c.database), ("user", Json.str c.user),
     ("password", Json.str c.password)]
  (⟨server ++ CONNECT, some body, Json.str ""⟩,
   match post resp with
   | .error e => (.error (connectErr ++ e), db1)
   | .ok env =>
     if !optTruthy (env.lookup "success") then
       (.error (connectErr ++ msgStr env), db1)
     else
       (.ok (), { db1 with auth := (env.lookup "data").getD (Json.str "") }))

/-! ### table.py -/

/-- `Table` handle state: name, owning `ChainDB`, and the cached document
(`self.currentDoc`, initially `{}`). -/
structure Table : Type where
  name : String
  db : ChainDB
  currentDoc : Json
deriving DecidableEq

/-- `Table.__init__`. -/
def Table.init (name : String) (db : ChainDB) : Table :=
  { name := name, db := db, currentDoc := Json.obj [] }

def persistErr : String := "Something went wrong with persist operation: "

/-- `Table.persist`: POST `{"data": currentDoc}`; on a success envelope
return its `data` field.  `currentDoc` is never assigned. -/
def Table.persist (t : Table) (resp : HttpResponse) :
    Request × Except String Json × Table :=
  (⟨t.db.server ++ PERSIST_NEW_DATA t.name, some [("data", t.currentDoc)], t.db.auth⟩,
   match post resp with
   | .error e => .error (persistErr ++ e)
   | .ok env =>
     if !optTruthy (env.lookup "success") then
       .error (persistErr ++ msgStr env)
     else
       .ok ((env.lookup "data").getD (Json.obj [])),
   t)

def getHistoryErr : String := "Something went wrong with get_history operation: "

/-- `Table.get_history`: GET the history endpoint; on a success envelope
return its `data` field (default `[]`). -/
def Table.get_history (t : Table) (limit : Int) (resp : HttpResponse) :
    Request × Except String Json × Table :=
  (⟨t.db.server ++ GET_HISTORY t.name limit, none, t.db.auth⟩,
   match get resp with
   | .error e => .error (getHistoryErr ++ e)
   | .ok env =>
     if !optTruthy (env.lookup "success") then
       .error (getHistoryErr ++ msgStr env)
     else
       .ok ((env.lookup "data").getD (Json.arr [])),
   t)

def refetchErr : String := "Something went wrong with refetch operation: "

/-- `Table.refetch`: GET the table endpoint; on a success envelope assign
its `data` field to `currentDoc`. -/
def Table.refetch (t : Table) (resp : HttpResponse) :
    Request × Except String Unit × Table :=
  (⟨t.db.server ++ GET_TABLE t.name, none, t.db.auth⟩,
   match get resp with
   | .error e => (.error (refetchErr ++ e), t)
   | .ok env =>
     if !optTruthy (env.lookup "success") then
       (.error (refetchErr ++ msgStr env), t)
     else
       (.ok (), { t with currentDoc := (env.lookup "data").getD (Json.obj []) }))

def findWhereErr : String := "Something went wrong with find_where operation: "

/-- `Table.find_where`: POST `{"criteria": ..., "limit": ..., "reverse": ...}`
verbatim from the arguments. -/
def Table.find_where (t : Table) (criteria : List (String × Json)) (limit : Int)
    (reverse : Bool) (resp : HttpResponse) : Request × Except String Json × Table :=
  let body : List (String × Json) :=
    [("criteria", Json.obj criteria), ("limit", Json.num limit),
     ("reverse", Json.bool reverse)]
  (⟨t.db.server ++ FIND_WHERE_BASIC t.name, some body, t.db.auth⟩,
   match post resp with
   | .error e => .error (findWhereErr ++ e)
   | .ok env =>
     if !optTruthy (env.lookup "success") then
       .error (findWhereErr ++ msgStr env)
     else
       .ok ((env.lookup "data").getD (Json.arr [])),
   t)

def findWhereAdvancedErr : String :=
  "Something went wrong with find_where_advanced operation: "

/-- The dict a `CriteriaAdvanced` object is serialized to. -/
def CriteriaAdvanced.toDict (c : CriteriaAdvanced) : Json :=
  Json.obj [("field", Json.str c.field), ("operator", Json.str c.operator),
            ("value", c.value)]

/-- `Table.find_where_advanced`: serialize the criteria list in input order
and POST it with `limit` and `reverse`. -/
def Table.find_where_advanced (t : Table) (criteria : List CriteriaAdvanced)
    (limit : Int) (reverse : Bool) (resp : HttpResponse) :
    Request × Except String Json × Table :=
  let body : List (String × Json) :=
    [("criteria", Json.arr (criteria.map CriteriaAdvanced.toDict)),
     ("limit", Json.num limit), ("reverse", Json.bool reverse)]
  (⟨t.db.server ++ FIND_WHERE_ADVANCED t.name, some body, t.db.auth⟩,
   match post resp with
   | .error e => .error (findWhereAdvancedErr ++ e)
   | .ok env =>
     if !optTruthy (env.lookup "success") then
       .error (findWhereAdvancedErr ++ msgStr env)
     else
       .ok ((env.lookup "data").getD (Json.arr [])),
   t)

/-! ### table_doc.py -/

/-- `TableDoc` handle state. -/
structure TableDoc : Type where
  table_name : String
  doc_id : String
  doc : Json
  db : ChainDB
deriving DecidableEq

def getDocErr : String := "Something went wrong with get_doc operation: "

/-- `Table.get_doc`: GET a document and wrap it in a `TableDoc`. -/
def Table.get_doc (t : Table) (docId : String) (resp : HttpResponse) :
    Request × Except String TableDoc × Table :=
  (⟨t.db.server ++ GET_DOC t.name docId, none, t.db.auth⟩,
   match get resp with
   | .error e => .error (getDocErr ++ e)
   | .ok env =>
     if !optTruthy (env.lookup "success") then
       .error (getDocErr ++ msgStr env)
     else
       .ok ⟨t.name, docId, (env.lookup "data").getD (Json.obj []), t.db⟩,
   t)

def updateErr (docId : String) : String :=
  "Something went wrong updating document " ++ docId ++ ": "

/-- `TableDoc.update`: POST `{"data": doc, "doc_id": doc_id}`; no field of
the handle is assigned on either path. -/
def TableDoc.update (d : TableDoc) (resp : HttpResponse) :
    Request × Except String Unit × TableDoc :=
  (⟨d.db.server ++ UPDATE_ITEM d.table_name,
    some [("data", d.doc), ("doc_id", Json.str d.doc_id)], d.db.auth⟩,
   match post resp with
   | .error e => .error (updateErr d.doc_id ++ e)
   | .ok env =>
     if !optTruthy (env.lookup "success") then
       .error (updateErr d.doc_id ++ msgStr env)
     else
       .ok (),
   d)

def docRefetchErr (docId : String) : String :=
  "Something went wrong refetching document " ++ docId ++ ": "

/-- `TableDoc.refetch`: GET the document endpoint; on a success envelope
assign its `data` field to `doc`. -/
def TableDoc.refetch (d : TableDoc) (resp : HttpResponse) :
    Request × Except String Unit × TableDoc :=
  (⟨d.db.server ++ GET_DOC d.table_name d.doc_id, none, d.db.auth⟩,
   match get resp with
   | .error e => (.error (docRefetchErr d.doc_id ++ e), d)
   | .ok env =>
     if !optTruthy (env.lookup "success") then
       (.error (docRefetchErr d.doc_id ++ msgStr env), d)
     else
       (.ok (), { d with doc := (env.lookup "data").getD (Json.obj []) }))

/-! ### events.py -/

/-- A Python callback reference; distinct numbers stand for distinct
function objects (Python compares them by reference with `!=`). -/
abbrev Callback := Nat

/-- `types.EventData` as constructed in `Events._listen`; fields hold the
raw values taken from the inbound frame's dict. -/
structure EventData : Type where
  event_type : Json
  database : Json
  table : Json
  data : Json
  timestamp : Json
deriving DecidableEq

/-- `Events` instance state.  `websocket` and `task` are `Option Unit`:
only their presence (`None` vs an object) steers the control flow. -/
structure Events : Type where
  url : String
  auth : Json
  websocket : Option Unit
  connected : Bool
  event_listeners : List (String × List Callback)
  task : Option Unit
deriving DecidableEq

/-- `Events.__init__`. -/
def Events.init (url : String) (auth : Json) : Events :=
  { url := url, auth := auth, websocket := none, connected := false,
    event_listeners := [], task := none }

/-- `Events.connect`, with the outcome of `websockets.connect` passed in:
on success store the socket, set `connected`, spawn the listen task; on
failure clear `connected` and raise the wrapped error. -/
def Events.connectWs (e : Events) (sockResult : Except String Unit) :
    Events × Except String Unit :=
  match sockResult with
  | .ok () =>
    ({ e with websocket := some (), connected := true, task := some () }, .ok ())
  | .error msg =>
    ({ e with connected := false },
     .error ("Failed to connect to WebSocket: " ++ msg))

/-- `self.event_listeners[event] = cbs`: overwrite in place when the key
exists, otherwise insert at the end (Python dict insertion order). -/
def setListeners (l : List (String × List Callback)) (event : String)
    (cbs : List Callback) : List (String × List Callback) :=
  if (l.lookup event).isSome then
    l.map (fun p => if p.1 = event then (p.1, cbs) else p)
  else l ++ [(event, cbs)]

/-- The outbound control frame `{"action": act, "event": event}`. -/
def controlFrame (act event : String) : Json :=
  Json.obj [("action", Json.str act), ("event", Json.str event)]

/-- `Events.subscribe`: reconnect when not connected (failure propagates),
ensure the key exists, append the callback, and send a subscribe frame
when connected with a live socket.  Returns the new state and the frames
sent. -/
def Events.subscribe (e : Events) (event : String) (cb : Callback)
    (sockResult : Except String Unit) : Events × List Json × Except String Unit :=
  let conn := if !e.connected then e.connectWs sockResult else (e, .ok ())
  match conn with
  | (e1, .error msg) => (e1, [], .error msg)
  | (e1, .ok ()) =>
    let cur := (e1.event_listeners.lookup event).getD []
    let e2 := { e1 with
      event_listeners := setListeners e1.event_listeners event (cur ++ [cb]) }
    let frames :=
      if e2.connected && e2.websocket.isSome then [controlFrame "subscribe" event]
      else []
    (e2, frames, .ok ())

/-- `Events.unsubscribe`: return immediately when the event name has no
entry in `event_listeners`; otherwise filter out the given callback (or
clear the list) and send an unsubscribe frame when connected with a live
socket.  Returns the new state and the frames sent. -/
def Events.unsubscribe (e : Events) (event : String) (cb : Option Callback) :
    Events × List Json :=
  if (e.event_listeners.lookup event).isNone then (e, [])
  else
    let cur := (e.event_listeners.lookup event).getD []
    let remaining :=
      match cb with
      | some c => cur.filter (fun x => x ≠ c)
      | none => []
    let e1 := { e with event_listeners := setListeners e.event_listeners event remaining }
    let frames :=
      if e1.connected && e1.websocket.isSome then [controlFrame "unsubscribe" event]
      else []
    (e1, frames)

/-- One iteration of `Events._listen` on a successfully parsed inbound
frame: when the frame is a dict whose `event` value is a registered name,
build one `EventData` and invoke every callback for that name in list
order.  Returns the invocations in call order. -/
def Events.handleMessage (e : Events) (msg : Json) : List (Callback × EventData) :=
  match msg with
  | .obj kvs =>
    match kvs.lookup "event" with
    | some (Json.str ev) =>
      match e.event_listeners.lookup ev with
      | some cbs =>
        let ed : EventData :=
          { event_type := (kvs.lookup "event_type").getD (Json.str ""),
            database := (kvs.lookup "database").getD (Json.str ""),
            table := (kvs.lookup "table").getD (Json.str ""),
            data := (kvs.lookup "data").getD (Json.obj []),
            timestamp := (kvs.lookup "timestamp").getD (Json.num 0) }
        cbs.map (fun cb => (cb, ed))
      | none => []
    | _ => []
  | _ => []

/-- External actions `Events.close` performs: `task.cancel()`/await when a
task exists, `websocket.close()` when a socket exists.  These are the only
statements of `close` that touch anything that could raise. -/
def Events.closeActions (e : Events) : List String :=
  (if e.task.isSome then ["task.cancel"] else []) ++
  (if e.websocket.isSome then ["websocket.close"] else [])

/-- `Events.close`: after the conditional teardown calls, `connected` is
set to `False`; `task` and `websocket` are not reassigned. -/
def Events.close (e : Events) : Events :=
  { e with connected := false }

/-! ### Helper predicates and lemmas -/

/-- `sub` occurs somewhere inside `s`. -/
def strContains (s sub : String) : Prop := ∃ a b, s = a ++ (sub ++ b)

/-- `s` begins with `p`. -/
def strStartsWith (s p : String) : Prop := ∃ b, s = p ++ b

lemma strStartsWith_append (p s : String) : strStartsWith (p ++ s) p := ⟨s, rfl⟩

lemma strContains_append_right (p s : String) : strContains (p ++ s) s :=
  ⟨p, "", by rw [String.append_empty]⟩

lemma strContains_statusMsg (p : String) (status : Nat) (text : String) :
    strContains (p ++ statusMsg status text) (toString status) :=
  ⟨p ++ "Request failed with status code ", ": " ++ text, by
    simp only [statusMsg, String.append_assoc]⟩

/-- The operation raised an exception whose message begins with `opErr` and
contains `frag`. -/
def raisesWith {α : Type} (r : Except String α) (opErr frag : String) : Prop :=
  ∃ msg, r = .error msg ∧ strStartsWith msg opErr ∧ strContains msg frag

lemma raisesWith_status {α : Type} {r : Except String α} (opErr : String)
    (status : Nat) (text : String) (h : r = .error (opErr ++ statusMsg status text)) :
    raisesWith r opErr (toString status) :=
  ⟨_, h, strStartsWith_append _ _, strContains_statusMsg _ _ _⟩

lemma raisesWith_msg {α : Type} {r : Except String α} {opErr m : String}
    (h : r = .error (opErr ++ m)) : raisesWith r opErr m :=
  ⟨_, h, strStartsWith_append _ _, strContains_append_right _ _⟩

end ChainDbPy

namespace ChainDbPy

/-! ### Claims -/

/-- C1: `Table.persist` does send a request whose `data` field is the cached
document, but it never replaces the cache: the handle after `persist` is the
handle before it, even on the concrete success envelope below, where the
response data (which carries the fresh `doc_id`) differs from the cache.
The repo's own example (`examples/basic_example.py`) reads the new
`doc_id` from the handle right after `persist`, which only works if the
response replaced the cache, so the missing assignment is a slip in
`Table.persist`. -/
theorem persist_sends_cache_but_never_replaces_it :
    (∀ (t : Table) (resp : HttpResponse),
      (Table.persist t resp).1.body = some [("data", t.currentDoc)] ∧
      (Table.persist t resp).2.2 = t) ∧
    (let t0 : Table := { name := "greeting", db := ChainDB.init,
                         currentDoc := Json.obj [("greeting", Json.str "Hi")] }
     let d0 : Json := Json.obj [("greeting", Json.str "Hi"), ("doc_id", Json.str "d1")]
     let r0 : HttpResponse :=
       ⟨200, "", [("success", Json.bool true), ("data", d0)]⟩
     (Table.persist t0 r0).2.1 = .ok d0 ∧
     (Table.persist t0 r0).2.2.currentDoc = t0.currentDoc ∧
     t0.currentDoc ≠ d0) := by
  refine ⟨fun t resp => ⟨rfl, rfl⟩, rfl, rfl, by decide⟩

/-- C6: the basic find request carries `criteria`, `limit` and `reverse`
verbatim, and the advanced find request carries the criteria serialized to
`{field, operator, value}` objects in input order with the same `limit` and
`reverse`. -/
theorem find_request_bodies_mirror_arguments (t : Table)
    (criteria : List (String × Json)) (adv : List CriteriaAdvanced)
    (limit : Int) (reverse : Bool) (resp : HttpResponse) :
    (Table.find_where t criteria limit reverse resp).1.body =
      some [("criteria", Json.obj criteria), ("limit", Json.num limit),
            ("reverse", Json.bool reverse)] ∧
    (Table.find_where_advanced t adv limit reverse resp).1.body =
      some [("criteria", Json.arr (adv.map CriteriaAdvanced.toDict)),
            ("limit", Json.num limit), ("reverse", Json.bool reverse)] :=
  ⟨rfl, rfl⟩

/-- C7: `TableDoc.update` sends `{"data": doc, "doc_id": doc_id}` and leaves
the whole handle (in particular `doc_id`) unchanged on every path. -/
theorem update_request_body_and_id_frame (d : TableDoc) (resp : HttpResponse) :
    (TableDoc.update d resp).1.body =
      some [("data", d.doc), ("doc_id", Json.str d.doc_id)] ∧
    (TableDoc.update d resp).2.2.doc_id = d.doc_id :=
  ⟨rfl, rfl⟩

/-- C5 counterexample: the empty string is not `None`, yet
`connection.server or DEFAULT_API_SERVER` tests truthiness, so a connect
with `server = ""` leaves the handle pointing at the default server, not at
the (empty) input value the claim promises. -/
theorem connect_empty_server_is_not_kept :
    (ChainDB.connect ChainDB.init ⟨some "", "db", "u", "p"⟩
        ⟨200, "", [("success", Json.bool true), ("data", Json.str "tok")]⟩).2.2.server =
      DEFAULT_API_SERVER ∧
    DEFAULT_API_SERVER ≠ "" :=
  ⟨rfl, by decide⟩

/-- C5 (amended to a non-`None`, non-empty server, the inputs Python's `or`
actually keeps): a successful connect stores the input server and database
and the token from the envelope's `data` field. -/
theorem connect_success_sets_handle_fields (db : ChainDB) (c : Connection)
    (s tok : String) (resp : HttpResponse) (hs : c.server = some s) (hne : s ≠ "")
    (h200 : resp.status = 200)
    (hsucc : resp.body.lookup "success" = some (Json.bool true))
    (hdata : resp.body.lookup "data" = some (Json.str tok)) :
    (ChainDB.connect db c resp).2.1 = .ok () ∧
    (ChainDB.connect db c resp).2.2.server = s ∧
    (ChainDB.connect db c resp).2.2.database = c.database ∧
    (ChainDB.connect db c resp).2.2.auth = Json.str tok := by
  simp [ChainDB.connect, post, h200, hsucc, hdata, optTruthy, Json.truthy,
    serverOrDefault, hs, hne]

/-- Witness for `connect_success_sets_handle_fields`. -/
theorem connect_success_sets_handle_fields_witness :
    (ChainDB.connect ChainDB.init ⟨some "http://h:1", "db", "u", "p"⟩
        ⟨200, "", [("success", Json.bool true), ("data", Json.str "tok")]⟩).2.1 = .ok () ∧
    (ChainDB.connect ChainDB.init ⟨some "http://h:1", "db", "u", "p"⟩
        ⟨200, "", [("success", Json.bool true), ("data", Json.str "tok")]⟩).2.2.server =
      "http://h:1" ∧
    (ChainDB.connect ChainDB.init ⟨some "http://h:1", "db", "u", "p"⟩
        ⟨200, "", [("success", Json.bool true), ("data", Json.str "tok")]⟩).2.2.database =
      Connection.database ⟨some "http://h:1", "db", "u", "p"⟩ ∧
    (ChainDB.connect ChainDB.init ⟨some "http://h:1", "db", "u", "p"⟩
        ⟨200, "", [("success", Json.bool true), ("data", Json.str "tok")]⟩).2.2.auth =
      Json.str "tok" :=
  connect_success_sets_handle_fields ChainDB.init ⟨some "http://h:1", "db", "u", "p"⟩
    "http://h:1" "tok" ⟨200, "", [("success", Json.bool true), ("data", Json.str "tok")]⟩
    rfl (by decide) rfl rfl rfl

/-- C9: when `ChainDB.connect` raises, `server` and `database` have already
been overwritten with the connection's values while `auth` still holds its
previous value.  (Stated for a non-`None`, non-empty input server, where
"the connection's value" is the input itself.) -/
theorem failed_connect_overwrites_server_and_database (db : ChainDB)
    (c : Connection) (s m : String) (resp : HttpResponse)
    (hs : c.server = some s) (hne : s ≠ "")
    (herr : (ChainDB.connect db c resp).2.1 = .error m) :
    (ChainDB.connect db c resp).2.2.server = s ∧
    (ChainDB.connect db c resp).2.2.database = c.database ∧
    (ChainDB.connect db c resp).2.2.auth = db.auth := by
  cases hp : post resp with
  | error e => simp [ChainDB.connect, hp, serverOrDefault, hs, hne]
  | ok env =>
    cases hb : !optTruthy (env.lookup "success") with
    | true => simp [ChainDB.connect, hp, hb, serverOrDefault, hs, hne]
    | false => simp [ChainDB.connect, hp, hb] at herr

/-- Witness for `failed_connect_overwrites_server_and_database`. -/
theorem failed_connect_overwrites_server_and_database_witness :
    (ChainDB.connect { server := "old", database := "olddb", auth := Json.str "oldtok" }
        ⟨some "http://h:1", "db", "u", "p"⟩ ⟨500, "boom", []⟩).2.2.server = "http://h:1" ∧
    (ChainDB.connect { server := "old", database := "olddb", auth := Json.str "oldtok" }
        ⟨some "http://h:1", "db", "u", "p"⟩ ⟨500, "boom", []⟩).2.2.database =
      Connection.database ⟨some "http://h:1", "db", "u", "p"⟩ ∧
    (ChainDB.connect { server := "old", database := "olddb", auth := Json.str "oldtok" }
        ⟨some "http://h:1", "db", "u", "p"⟩ ⟨500, "boom", []⟩).2.2.auth =
      ChainDB.auth { server := "old", database := "olddb", auth := Json.str "oldtok" } :=
  failed_connect_overwrites_server_and_database
    { server := "old", database := "olddb", auth := Json.str "oldtok" }
    ⟨some "http://h:1", "db", "u", "p"⟩ "http://h:1"
    (connectErr ++ statusMsg 500 "boom") ⟨500, "boom", []⟩ rfl (by decide) rfl

/-- C10: an operation that raises leaves the cached document untouched:
`persist`, `get_history`, `find_where`, `find_where_advanced`, `get_doc`
and `update` never reassign the handle at all, and the two `refetch`s only
assign after the success check passed. -/
theorem raising_operations_leave_cache_unchanged (t : Table) (d : TableDoc)
    (resp : HttpResponse) (criteria : List (String × Json))
    (adv : List CriteriaAdvanced) (limit : Int) (reverse : Bool) (docId : String) :
    (Table.persist t resp).2.2 = t ∧
    (∀ m, (Table.refetch t resp).2.1 = .error m → (Table.refetch t resp).2.2 = t) ∧
    (Table.get_history t limit resp).2.2 = t ∧
    (Table.find_where t criteria limit reverse resp).2.2 = t ∧
    (Table.find_where_advanced t adv limit reverse resp).2.2 = t ∧
    (Table.get_doc t docId resp).2.2 = t ∧
    (TableDoc.update d resp).2.2 = d ∧
    (∀ m, (TableDoc.refetch d resp).2.1 = .error m → (TableDoc.refetch d resp).2.2 = d) := by
  refine ⟨rfl, ?_, rfl, rfl, rfl, rfl, rfl, ?_⟩
  · intro m herr
    cases hp : get resp with
    | error e => simp [Table.refetch, hp]
    | ok env =>
      cases hb : !optTruthy (env.lookup "success") with
      | true => simp [Table.refetch, hp, hb]
      | false => simp [Table.refetch, hp, hb] at herr
  · intro m herr
    cases hp : get resp with
    | error e => simp [TableDoc.refetch, hp]
    | ok env =>
      cases hb : !optTruthy (env.lookup "success") with
      | true => simp [TableDoc.refetch, hp, hb]
      | false => simp [TableDoc.refetch, hp, hb] at herr

/-- Witness for `raising_operations_leave_cache_unchanged`. -/
theorem raising_operations_leave_cache_unchanged_witness :
    (Table.refetch (Table.init "t" ChainDB.init) ⟨500, "boom", []⟩).2.2 =
      Table.init "t" ChainDB.init ∧
    (TableDoc.refetch ⟨"t", "d1", Json.obj [], ChainDB.init⟩ ⟨500, "boom", []⟩).2.2 =
      (⟨"t", "d1", Json.obj [], ChainDB.init⟩ : TableDoc) := by
  have h := raising_operations_leave_cache_unchanged (Table.init "t" ChainDB.init)
    ⟨"t", "d1", Json.obj [], ChainDB.init⟩ ⟨500, "boom", []⟩ [] [] 1000 true "d1"
  exact ⟨h.2.1 (refetchErr ++ statusMsg 500 "boom") rfl,
         h.2.2.2.2.2.2.2 (docRefetchErr "d1" ++ statusMsg 500 "boom") rfl⟩

/-- C8: `Events.close` performs no teardown call (the only statements that
could raise) when the instance was never connected (`task` and `websocket`
both `None`), and after every `close` the `connected` flag is `False`. -/
theorem close_is_safe_and_clears_connected (e : Events) :
    ((e.task = none ∧ e.websocket = none) → Events.closeActions e = []) ∧
    (Events.close e).connected = false := by
  refine ⟨?_, rfl⟩
  rintro ⟨h1, h2⟩
  simp [Events.closeActions, h1, h2]

/-- Witness for `close_is_safe_and_clears_connected`. -/
theorem close_is_safe_and_clears_connected_witness :
    Events.closeActions (Events.init "ws://h/api/v1/events" (Json.str "t")) = [] ∧
    (Events.close (Events.init "ws://h/api/v1/events" (Json.str "t"))).connected = false :=
  ⟨(close_is_safe_and_clears_connected (Events.init "ws://h/api/v1/events" (Json.str "t"))).1
      ⟨rfl, rfl⟩,
   (close_is_safe_and_clears_connected (Events.init "ws://h/api/v1/events" (Json.str "t"))).2⟩

/-- C2 counterexample: on a connected registry whose listener map has no
entry for the event (it was never subscribed), `unsubscribe` returns at the
`event not in self.event_listeners` guard and sends nothing. -/
theorem unsubscribe_unknown_event_sends_no_frame :
    (Events.unsubscribe
        { url := "ws://h/api/v1/events", auth := Json.str "t", websocket := some (),
          connected := true, event_listeners := [], task := some () }
        "new_block" none).2 = [] ∧
    controlFrame "unsubscribe" "new_block" ∉
      (Events.unsubscribe
        { url := "ws://h/api/v1/events", auth := Json.str "t", websocket := some (),
          connected := true, event_listeners := [], task := some () }
        "new_block" none).2 :=
  ⟨rfl, List.not_mem_nil _⟩

/-- C2 (amended): on a connected registry the unsubscribe control frame is
sent exactly when the event name has an entry in the listener map — also
when that entry's callback list is already empty — and nothing is sent when
the event was never subscribed. -/
theorem unsubscribe_frame_iff_event_known (e : Events) (ev : String)
    (cb : Option Callback) (hc : e.connected = true) (hw : e.websocket = some ()) :
    (∀ L, e.event_listeners.lookup ev = some L →
      (Events.unsubscribe e ev cb).2 = [controlFrame "unsubscribe" ev]) ∧
    (e.event_listeners.lookup ev = none → (Events.unsubscribe e ev cb).2 = []) := by
  constructor
  · intro L hL
    simp [Events.unsubscribe, hL, hc, hw]
  · intro h
    simp [Events.unsubscribe, h]

/-- Witness for `unsubscribe_frame_iff_event_known`. -/
theorem unsubscribe_frame_iff_event_known_witness :
    (Events.unsubscribe
        { url := "u", auth := Json.str "t", websocket := some (), connected := true,
          event_listeners := [("blk", [])], task := some () } "blk" none).2 =
      [controlFrame "unsubscribe" "blk"] ∧
    (Events.unsubscribe
        { url := "u", auth := Json.str "t", websocket := some (), connected := true,
          event_listeners := [("blk", [])], task := some () } "other" none).2 = [] :=
  ⟨(unsubscribe_frame_iff_event_known
      { url := "u", auth := Json.str "t", websocket := some (), connected := true,
        event_listeners := [("blk", [])], task := some () } "blk" none rfl rfl).1 [] rfl,
   (unsubscribe_frame_iff_event_known
      { url := "u", auth := Json.str "t", websocket := some (), connected := true,
        event_listeners := [("blk", [])], task := some () } "other" none rfl rfl).2 rfl⟩

lemma lookup_map_replace (l : List (String × List Callback)) (ev : String)
    (cbs : List Callback) (h : (l.lookup ev).isSome = true) :
    (l.map (fun p => if p.1 = ev then (p.1, cbs) else p)).lookup ev = some cbs := by
  induction l with
  | nil => simp at h
  | cons p tl ih =>
    obtain ⟨k, v⟩ := p
    by_cases hk : ev = k
    · subst hk
      have hf : (fun (p : String × List Callback) =>
          if p.1 = ev then (p.1, cbs) else p) (ev, v) = (ev, cbs) := by simp
      simp [List.map_cons, hf, List.lookup_cons]
    · have hb : (ev == k) = false := beq_eq_false_iff_ne.mpr hk
      have hk3 : ¬k = ev := fun hh => hk hh.symm
      have hf : (fun (p : String × List Callback) =>
          if p.1 = ev then (p.1, cbs) else p) (k, v) = (k, v) := by
        simp [hk3]
      rw [List.lookup_cons, hb] at h
      simp only [List.map_cons, hf, List.lookup_cons, hb]
      exact ih h

lemma lookup_append_new (l : List (String × List Callback)) (ev : String)
    (cbs : List Callback) (h : l.lookup ev = none) :
    (l ++ [(ev, cbs)]).lookup ev = some cbs := by
  induction l with
  | nil => simp [List.lookup_cons]
  | cons p tl ih =>
    obtain ⟨k, v⟩ := p
    cases hbeq : (ev == k) with
    | true =>
      rw [List.lookup_cons, hbeq] at h
      exact absurd h (by simp)
    | false =>
      rw [List.lookup_cons, hbeq] at h
      rw [List.cons_append, List.lookup_cons, hbeq]
      exact ih h

/-- `self.event_listeners[event] = cbs` followed by a lookup of `event`
yields `cbs`. -/
lemma lookup_setListeners_self (l : List (String × List Callback)) (ev : String)
    (cbs : List Callback) :
    (setListeners l ev cbs).lookup ev = some cbs := by
  unfold setListeners
  split
  case isTrue h => exact lookup_map_replace l ev cbs h
  case isFalse h =>
    exact lookup_append_new l ev cbs (Option.not_isSome_iff_eq_none.mp h)

/-- On a connected instance, `Events.subscribe` skips the reconnect and
only rewrites the listener map; `connected` and `websocket` are kept. -/
lemma subscribe_connected_state (e : Events) (ev : String) (cb : Callback)
    (sr : Except String Unit) (hc : e.connected = true) :
    (Events.subscribe e ev cb sr).1.event_listeners =
      setListeners e.event_listeners ev
        (((e.event_listeners.lookup ev).getD []) ++ [cb]) ∧
    (Events.subscribe e ev cb sr).1.connected = true ∧
    (Events.subscribe e ev cb sr).1.websocket = e.websocket := by
  simp [Events.subscribe, hc]

/-- When the event has an entry, `Events.unsubscribe` with a callback
rewrites the entry to the filtered list. -/
lemma unsubscribe_some_state (e : Events) (ev : String) (c : Callback)
    (L : List Callback) (hL : e.event_listeners.lookup ev = some L) :
    (Events.unsubscribe e ev (some c)).1.event_listeners =
      setListeners e.event_listeners ev (L.filter (fun x => x ≠ c)) := by
  simp [Events.unsubscribe, hL]

/-- When the event has an entry, `Events.unsubscribe` without a callback
empties the entry. -/
lemma unsubscribe_none_state (e : Events) (ev : String)
    (L : List Callback) (hL : e.event_listeners.lookup ev = some L) :
    (Events.unsubscribe e ev none).1.event_listeners =
      setListeners e.event_listeners ev [] := by
  simp [Events.unsubscribe, hL]

/-- C3: starting from a connected registry with no entry for `ev`,
subscribing `c1` then `c2` stores `[c1, c2]` (append at the end, no
deduplication); an inbound frame whose `event` field is `ev` invokes both,
in subscribe order, with the same `EventData`; unsubscribing `c1` leaves
exactly `c2` active (still invoked on a matching frame); unsubscribing
with no callback empties the list for `ev`. -/
theorem subscribe_dispatch_unsubscribe_order (e : Events) (ev : String)
    (c1 c2 : Callback) (sr1 sr2 : Except String Unit) (kvs : List (String × Json))
    (hc : e.connected = true) (hne : c1 ≠ c2)
    (hfresh : e.event_listeners.lookup ev = none)
    (hkv : kvs.lookup "event" = some (Json.str ev)) :
    (Events.subscribe (Events.subscribe e ev c1 sr1).1 ev c2
        sr2).1.event_listeners.lookup ev = some [c1, c2] ∧
    (Events.handleMessage (Events.subscribe (Events.subscribe e ev c1 sr1).1 ev c2 sr2).1
        (Json.obj kvs)).map Prod.fst = [c1, c2] ∧
    (Events.unsubscribe (Events.subscribe (Events.subscribe e ev c1 sr1).1 ev c2 sr2).1
        ev (some c1)).1.event_listeners.lookup ev = some [c2] ∧
    (Events.handleMessage
        (Events.unsubscribe (Events.subscribe (Events.subscribe e ev c1 sr1).1 ev c2 sr2).1
          ev (some c1)).1
        (Json.obj kvs)).map Prod.fst = [c2] ∧
    (Events.unsubscribe (Events.subscribe (Events.subscribe e ev c1 sr1).1 ev c2 sr2).1
        ev none).1.event_listeners.lookup ev = some [] := by
  obtain ⟨hl1, hc1, _⟩ := subscribe_connected_state e ev c1 sr1 hc
  have hlook1 : (Events.subscribe e ev c1 sr1).1.event_listeners.lookup ev = some [c1] := by
    rw [hl1, hfresh]
    simpa using lookup_setListeners_self e.event_listeners ev [c1]
  obtain ⟨hl2, _, _⟩ := subscribe_connected_state (Events.subscribe e ev c1 sr1).1 ev c2 sr2 hc1
  have hlook2 : (Events.subscribe (Events.subscribe e ev c1 sr1).1 ev c2
      sr2).1.event_listeners.lookup ev = some [c1, c2] := by
    rw [hl2, hlook1]
    simpa using lookup_setListeners_self _ ev [c1, c2]
  have hfilter : [c1, c2].filter (fun x => x ≠ c1) = [c2] := by
    simp [List.filter, hne, Ne.symm hne]
  have hun1 : (Events.unsubscribe (Events.subscribe (Events.subscribe e ev c1 sr1).1 ev c2
      sr2).1 ev (some c1)).1.event_listeners.lookup ev = some [c2] := by
    rw [unsubscribe_some_state _ ev c1 [c1, c2] hlook2, hfilter]
    exact lookup_setListeners_self _ ev [c2]
  have hun2 : (Events.unsubscribe (Events.subscribe (Events.subscribe e ev c1 sr1).1 ev c2
      sr2).1 ev none).1.event_listeners.lookup ev = some [] := by
    rw [unsubscribe_none_state _ ev [c1, c2] hlook2]
    exact lookup_setListeners_self _ ev []
  refine ⟨hlook2, ?_, hun1, ?_, hun2⟩
  · simp [Events.handleMessage, hkv, hlook2]
  · simp [Events.handleMessage, hkv, hun1]

/-- Witness for `subscribe_dispatch_unsubscribe_order`. -/
theorem subscribe_dispatch_unsubscribe_order_witness :
    (Events.subscribe (Events.subscribe (Events.init "u" (Json.str "t") |>.connectWs
        (.ok ())).1 "blk" 0 (.ok ())).1 "blk" 1
        (.ok ())).1.event_listeners.lookup "blk" = some [0, 1] ∧
    (Events.handleMessage (Events.subscribe (Events.subscribe (Events.init "u" (Json.str "t")
        |>.connectWs (.ok ())).1 "blk" 0 (.ok ())).1 "blk" 1 (.ok ())).1
        (Json.obj [("event", Json.str "blk")])).map Prod.fst = [0, 1] ∧
    (Events.unsubscribe (Events.subscribe (Events.subscribe (Events.init "u" (Json.str "t")
        |>.connectWs (.ok ())).1 "blk" 0 (.ok ())).1 "blk" 1 (.ok ())).1
        "blk" (some 0)).1.event_listeners.lookup "blk" = some [1] ∧
    (Events.handleMessage
        (Events.unsubscribe (Events.subscribe (Events.subscribe (Events.init "u" (Json.str "t")
          |>.connectWs (.ok ())).1 "blk" 0 (.ok ())).1 "blk" 1 (.ok ())).1
          "blk" (some 0)).1
        (Json.obj [("event", Json.str "blk")])).map Prod.fst = [1] ∧
    (Events.unsubscribe (Events.subscribe (Events.subscribe (Events.init "u" (Json.str "t")
        |>.connectWs (.ok ())).1 "blk" 0 (.ok ())).1 "blk" 1 (.ok ())).1
        "blk" none).1.event_listeners.lookup "blk" = some [] :=
  subscribe_dispatch_unsubscribe_order
    ((Events.init "u" (Json.str "t")).connectWs (.ok ())).1 "blk" 0 1 (.ok ()) (.ok ())
    [("event", Json.str "blk")] rfl (by decide) rfl rfl

/-- C4: every HTTP-backed operation raises on a non-200 status with a
message that starts with its operation-specific text and contains the
status code, and raises on a 200 response whose envelope has
`success: false` with a message that starts with the same text and
contains the envelope's `message` field. -/
theorem http_error_paths (db : ChainDB) (c : Connection) (t : Table) (d : TableDoc)
    (resp : HttpResponse) (criteria : List (String × Json))
    (adv : List CriteriaAdvanced) (limit : Int) (reverse : Bool)
    (docId : String) (m : String) :
    (resp.status ≠ 200 →
      raisesWith (ChainDB.connect db c resp).2.1 connectErr (toString resp.status) ∧
      raisesWith (Table.persist t resp).2.1 persistErr (toString resp.status) ∧
      raisesWith (Table.refetch t resp).2.1 refetchErr (toString resp.status) ∧
      raisesWith (Table.get_history t limit resp).2.1 getHistoryErr (toString resp.status) ∧
      raisesWith (Table.find_where t criteria limit reverse resp).2.1 findWhereErr
        (toString resp.status) ∧
      raisesWith (Table.find_where_advanced t adv limit reverse resp).2.1
        findWhereAdvancedErr (toString resp.status) ∧
      raisesWith (Table.get_doc t docId resp).2.1 getDocErr (toString resp.status) ∧
      raisesWith (TableDoc.update d resp).2.1 (updateErr d.doc_id) (toString resp.status)) ∧
    (resp.status = 200 →
      resp.body.lookup "success" = some (Json.bool false) →
      resp.body.lookup "message" = some (Json.str m) →
      raisesWith (ChainDB.connect db c resp).2.1 connectErr m ∧
      raisesWith (Table.persist t resp).2.1 persistErr m ∧
      raisesWith (Table.refetch t resp).2.1 refetchErr m ∧
      raisesWith (Table.get_history t limit resp).2.1 getHistoryErr m ∧
      raisesWith (Table.find_where t criteria limit reverse resp).2.1 findWhereErr m ∧
      raisesWith (Table.find_where_advanced t adv limit reverse resp).2.1
        findWhereAdvancedErr m ∧
      raisesWith (Table.get_doc t docId resp).2.1 getDocErr m ∧
      raisesWith (TableDoc.update d resp).2.1 (updateErr d.doc_id) m) := by
  constructor
  · intro hs
    exact ⟨raisesWith_status connectErr resp.status resp.text
        (by simp [ChainDB.connect, post, hs]),
      raisesWith_status persistErr resp.status resp.text
        (by simp [Table.persist, post, hs]),
      raisesWith_status refetchErr resp.status resp.text
        (by simp [Table.refetch, get, hs]),
      raisesWith_status getHistoryErr resp.status resp.text
        (by simp [Table.get_history, get, hs]),
      raisesWith_status findWhereErr resp.status resp.text
        (by simp [Table.find_where, post, hs]),
      raisesWith_status findWhereAdvancedErr resp.status resp.text
        (by simp [Table.find_where_advanced, post, hs]),
      raisesWith_status getDocErr resp.status resp.text
        (by simp [Table.get_doc, get, hs]),
      raisesWith_status (updateErr d.doc_id) resp.status resp.text
        (by simp [TableDoc.update, post, hs])⟩
  · intro h200 hsucc hmsg
    exact ⟨raisesWith_msg (by
        simp [ChainDB.connect, post, h200, hsucc, hmsg, optTruthy, Json.truthy, msgStr, pyStr]),
      raisesWith_msg (by
        simp [Table.persist, post, h200, hsucc, hmsg, optTruthy, Json.truthy, msgStr, pyStr]),
      raisesWith_msg (by
        simp [Table.refetch, get, h200, hsucc, hmsg, optTruthy, Json.truthy, msgStr, pyStr]),
      raisesWith_msg (by
        simp [Table.get_history, get, h200, hsucc, hmsg, optTruthy, Json.truthy, msgStr, pyStr]),
      raisesWith_msg (by
        simp [Table.find_where, post, h200, hsucc, hmsg, optTruthy, Json.truthy, msgStr, pyStr]),
      raisesWith_msg (by
        simp [Table.find_where_advanced, post, h200, hsucc, hmsg, optTruthy, Json.truthy,
          msgStr, pyStr]),
      raisesWith_msg (by
        simp [Table.get_doc, get, h200, hsucc, hmsg, optTruthy, Json.truthy, msgStr, pyStr]),
      raisesWith_msg (by
        simp [TableDoc.update, post, h200, hsucc, hmsg, optTruthy, Json.truthy, msgStr, pyStr])⟩

/-- Witness for `http_error_paths`: a 500 response and a 200 `success:false`
response, checked on every operation. -/
theorem http_error_paths_witness :
    (raisesWith (ChainDB.connect ChainDB.init ⟨some "s", "db", "u", "p"⟩
        ⟨500, "x", []⟩).2.1 connectErr (toString (500 : Nat)) ∧
      raisesWith (Table.persist (Table.init "t" ChainDB.init) ⟨500, "x", []⟩).2.1
        persistErr (toString (500 : Nat)) ∧
      raisesWith (Table.refetch (Table.init "t" ChainDB.init) ⟨500, "x", []⟩).2.1
        refetchErr (toString (500 : Nat)) ∧
      raisesWith (Table.get_history (Table.init "t" ChainDB.init) 5 ⟨500, "x", []⟩).2.1
        getHistoryErr (toString (500 : Nat)) ∧
      raisesWith (Table.find_where (Table.init "t" ChainDB.init) [] 5 true
        ⟨500, "x", []⟩).2.1 findWhereErr (toString (500 : Nat)) ∧
      raisesWith (Table.find_where_advanced (Table.init "t" ChainDB.init) [] 5 true
        ⟨500, "x", []⟩).2.1 findWhereAdvancedErr (toString (500 : Nat)) ∧
      raisesWith (Table.get_doc (Table.init "t" ChainDB.init) "i" ⟨500, "x", []⟩).2.1
        getDocErr (toString (500 : Nat)) ∧
      raisesWith (TableDoc.update ⟨"t", "i", Json.obj [], ChainDB.init⟩
        ⟨500, "x", []⟩).2.1 (updateErr "i") (toString (500 : Nat))) ∧
    (raisesWith (ChainDB.connect ChainDB.init ⟨some "s", "db", "u", "p"⟩
        ⟨200, "", [("success", Json.bool false), ("message", Json.str "bad")]⟩).2.1
        connectErr "bad" ∧
      raisesWith (Table.persist (Table.init "t" ChainDB.init)
        ⟨200, "", [("success", Json.bool false), ("message", Json.str "bad")]⟩).2.1
        persistErr "bad" ∧
      raisesWith (Table.refetch (Table.init "t" ChainDB.init)
        ⟨200, "", [("success", Json.bool false), ("message", Json.str "bad")]⟩).2.1
        refetchErr "bad" ∧
      raisesWith (Table.get_history (Table.init "t" ChainDB.init) 5
        ⟨200, "", [("success", Json.bool false), ("message", Json.str "bad")]⟩).2.1
        getHistoryErr "bad" ∧
      raisesWith (Table.find_where (Table.init "t" ChainDB.init) [] 5 true
        ⟨200, "", [("success", Json.bool false), ("message", Json.str "bad")]⟩).2.1
        findWhereErr "bad" ∧
      raisesWith (Table.find_where_advanced (Table.init "t" ChainDB.init) [] 5 true
        ⟨200, "", [("success", Json.bool false), ("message", Json.str "bad")]⟩).2.1
        findWhereAdvancedErr "bad" ∧
      raisesWith (Table.get_doc (Table.init "t" ChainDB.init) "i"
        ⟨200, "", [("success", Json.bool false), ("message", Json.str "bad")]⟩).2.1
        getDocErr "bad" ∧
      raisesWith (TableDoc.update ⟨"t", "i", Json.obj [], ChainDB.init⟩
        ⟨200, "", [("success", Json.bool false), ("message", Json.str "bad")]⟩).2.1
        (updateErr "i") "bad") :=
  ⟨(http_error_paths ChainDB.init ⟨some "s", "db", "u", "p"⟩
      (Table.init "t" ChainDB.init) ⟨"t", "i", Json.obj [], ChainDB.init⟩
      ⟨500, "x", []⟩ [] [] 5 true "i" "bad").1 (by decide),
   (http_error_paths ChainDB.init ⟨some "s", "db", "u", "p"⟩
      (Table.init "t" ChainDB.init) ⟨"t", "i", Json.obj [], ChainDB.init⟩
      ⟨200, "", [("success", Json.bool false), ("message", Json.str "bad")]⟩
      [] [] 5 true "i" "bad").2 rfl rfl rfl⟩

end ChainDbPy
